import Mathlib

/-!
# Booking agent front-end: session controller and admin poller

A shallow embedding of `frontend/src/App.jsx` (the `App` component: `handleSend`,
`recognition.onresult`, `handleSlotClick`) and of `frontend/src/AdminDashboard.jsx`
(`fetchAppointments`, `handleCancel`).

React state is an explicit record. An `async` function is split at its `await`:
the part before it is one function, and the continuation is a second function run
by a later event (the request resolving or rejecting). A `setTimeout` callback is a
pending timer that a later event fires; a timer records its delay, and the events are
not ordered by a clock, so every interleaving the browser can produce is a sequence of
events here. A handler reads the component state through
the closure of the render it was created in; that render's `messages` and
`inputValue` are explicit arguments of `handleSend`.
-/

namespace BookingAgent

/-! ## JavaScript values -/

/-- A value of a parsed JSON body, plus `undefined`. An object lists its fields with
unique keys. Numbers are only stored and tested for zero, never computed with. -/
inductive JsVal where
  | undefined
  | null
  | bool (b : Bool)
  | num (n : Int)
  | str (s : String)
  | arr (xs : List JsVal)
  | obj (fields : List (String × JsVal))

namespace JsVal

/-- Truthiness, as tested by `&&`, `||`, `?:` and `if`. -/
def truthy : JsVal → Bool
  | undefined => false
  | null => false
  | bool b => b
  | num n => n != 0
  | str s => s != ""
  | arr _ => true
  | obj _ => true

/-- The `typeof` operator. -/
def typeof : JsVal → String
  | undefined => "undefined"
  | null => "object"
  | bool _ => "boolean"
  | num _ => "number"
  | str _ => "string"
  | arr _ => "object"
  | obj _ => "object"

/-- Property read `v.k` for a key `k` that no prototype defines (`type`, `slots`,
`start`, `text`, `data`): a `TypeError` (`none`) on `null` and `undefined`, the field
of an object, and `undefined` everywhere else. -/
def getProp (v : JsVal) (k : String) : Option JsVal :=
  match v with
  | undefined => none
  | null => none
  | obj fields => some ((fields.lookup k).getD undefined)
  | _ => some undefined

/-- Optional chaining `v?.k`: `undefined` on `null` and `undefined`, else `v.k`. -/
def getPropOpt (v : JsVal) (k : String) : JsVal :=
  (getProp v k).getD undefined

/-- Element read `v[0]` on a value that is already known to be truthy. -/
def index0 : JsVal → JsVal
  | arr xs => xs.head?.getD undefined
  | str s => match s.data with
    | [] => undefined
    | c :: _ => str (String.singleton c)
  | obj fields => (fields.lookup "0").getD undefined
  | _ => undefined

/-- Strict equality `v === 'k'` with a string literal. -/
def eqStr (v : JsVal) (k : String) : Bool :=
  match v with
  | str s => s == k
  | _ => false

/-- The call `v.map(s => s.start)`: on an array, the `start` property of every entry
(a `TypeError` if an entry is `null` or `undefined`); on any other JSON value `v.map`
is not a function, a `TypeError`. -/
def mapStart : JsVal → Option JsVal
  | arr xs => (xs.mapM (fun s => getProp s "start")).map arr
  | _ => none

end JsVal

/-! ## Data model of the session -/

/-- One entry of the `messages` state: `{ role, text, type, data }`; `data` is
`undefined` where the object literal has no such field. -/
structure Msg where
  role : String
  text : JsVal
  type : String
  data : JsVal

/-- One entry of the `history` sent with a request: `{ role, content }`. -/
structure HistoryItem where
  role : String
  content : JsVal

/-- The body posted to `/chat`: `{ session_id, message, history }`. -/
structure Request where
  session_id : String
  message : String
  history : List HistoryItem

/-- A callback handed to `setTimeout`, with the variables it closes over. -/
inductive Timer where
  /-- The callback of line 230, closing over `responseText` and `data`. -/
  | reply (responseText data : JsVal)
  /-- The callback `() => setSystemState('idle')` of line 235. -/
  | revert

/-- The state of the `App` component together with what the event loop holds for it:
the requests awaiting an answer, the pending timers with their delay in ms, the texts
handed to `speak`, and the number of exceptions that escaped a timer callback. -/
structure Session where
  messages : List Msg
  inputValue : String
  systemState : String
  isListening : Bool
  inflight : List Request
  timers : List (Nat × Timer)
  spoken : List JsVal
  uncaught : Nat

/-- The initial value of `messages` (line 178). -/
def initMessages : List Msg :=
  [{ role := "agent", text := .str "Systems Online. Welcome to the Universal Booking Interface.",
     type := "text", data := .undefined }]

/-- The component after its first render. -/
def init : Session :=
  { messages := initMessages, inputValue := "", systemState := "idle", isListening := false,
    inflight := [], timers := [], spoken := [], uncaught := 0 }

/-! ## handleSend -/

/-- The characters removed by `String.prototype.trim` (WhiteSpace and LineTerminator). -/
def isTrimChar (c : Char) : Bool :=
  let n := c.toNat
  n == 0x9 || n == 0xA || n == 0xB || n == 0xC || n == 0xD || n == 0x20 || n == 0xA0 ||
  n == 0x1680 || (0x2000 ≤ n && n ≤ 0x200A) || n == 0x2028 || n == 0x2029 || n == 0x202F ||
  n == 0x205F || n == 0x3000 || n == 0xFEFF

/-- The method `String.prototype.trim`. -/
def jsTrim (s : String) : String :=
  ⟨((s.data.dropWhile isTrimChar).reverse.dropWhile isTrimChar).reverse⟩

/-- Line 219: `text || inputValue.trim()`, where `text` is `none` for `null`. -/
def userMsgOf (inputValue : String) (text : Option String) : String :=
  match text with
  | some t => if t != "" then t else jsTrim inputValue
  | none => jsTrim inputValue

/-- The user message of line 221. -/
def userMessage (userMsg : String) : Msg :=
  { role := "user", text := .str userMsg, type := "text", data := .undefined }

/-- The mapping of line 226 on one message. -/
def toHistory (m : Msg) : HistoryItem :=
  { role := if m.role == "agent" then "assistant" else "user", content := m.text }

/-- The fallback message of line 242. -/
def fallbackMessage : Msg :=
  { role := "agent", text := .str "Signal Lost. Please retry.", type := "text", data := .undefined }

/-- Lines 218-227, `handleSend` up to its `await`. `messages` and `inputValue` are the
values in the closure of the render that created this `handleSend`; the functional
updates `setMessages(prev => ...)` act on the current state `s`. -/
def handleSend (messages : List Msg) (inputValue : String) (text : Option String)
    (s : Session) : Session :=
  let userMsg := userMsgOf inputValue text
  if userMsg == "" then s
  else
    { s with
      messages := s.messages ++ [userMessage userMsg]
      inputValue := ""
      systemState := "thinking"
      inflight := s.inflight ++
        [{ session_id := "space-user", message := userMsg, history := messages.map toHistory }] }

/-- Line 228: `const { text: responseText, data } = res.data`; a `TypeError` (`none`)
when `res.data` is `null` or `undefined`. -/
def destructure (body : JsVal) : Option (JsVal × JsVal) :=
  match body.getProp "text", body.getProp "data" with
  | some t, some d => some (t, d)
  | _, _ => none

/-- Line 233: the value given to `msgData` in the `slots` branch; `none` is a thrown
`TypeError`. In that branch `data.type` is a string, so `data` is an object and
`data.slots` reads its field without throwing. -/
def slotsData (data : JsVal) : Option JsVal :=
  let slots := data.getPropOpt "slots"
  if slots.truthy && slots.index0.truthy && slots.index0.typeof == "object" then
    slots.mapStart
  else some slots

/-- Lines 231-238, the callback deferred by 800 ms; `none` when it throws, which in
the `slots` branch happens before any state is set. -/
def replyCallback (responseText data : JsVal) (s : Session) : Option Session :=
  if (data.getPropOpt "type").eqStr "slots" then
    (slotsData data).map fun msgData =>
      { s with
        messages := s.messages ++
          [{ role := "agent", text := responseText, type := "slots", data := msgData }]
        spoken := s.spoken ++ [responseText] }
  else if (data.getPropOpt "type").eqStr "confirmation" then
    some { s with
      systemState := "success"
      timers := s.timers ++ [(3000, Timer.revert)]
      messages := s.messages ++
        [{ role := "agent", text := responseText, type := "confirmation_card", data := .null }]
      spoken := s.spoken ++ [responseText] }
  else
    some { s with
      systemState := "idle"
      messages := s.messages ++
        [{ role := "agent", text := responseText, type := "text", data := .null }]
      spoken := s.spoken ++ [responseText] }

/-- Lines 228-243, `handleSend` after its `await` when the post resolves with
`res.data = body`: the deferred callback is scheduled, or the destructuring throws
into the `catch`. -/
def onResolve (body : JsVal) (s : Session) : Session :=
  match destructure body with
  | some (responseText, data) =>
    { s with timers := s.timers ++ [(800, Timer.reply responseText data)] }
  | none =>
    { s with systemState := "idle", messages := s.messages ++ [fallbackMessage] }

/-- Lines 240-243, `handleSend` after its `await` when the post rejects. -/
def onReject (s : Session) : Session :=
  { s with systemState := "idle", messages := s.messages ++ [fallbackMessage] }

/-- Running one timer callback. -/
def runTimer (t : Timer) (s : Session) : Session :=
  match t with
  | .reply responseText data =>
    match replyCallback responseText data s with
    | some s' => s'
    | none => { s with uncaught := s.uncaught + 1 }
  | .revert => { s with systemState := "idle" }

/-! ## Events of the session -/

/-- What can happen to the session. A user event runs the handler of the latest
render, so its closure holds the current state; `recognition.onresult` is installed
once by the effect of line 192 (dependency list `[]`) and keeps the `handleSend` of
the first render. -/
inductive Event where
  /-- The `onChange` of the input field. -/
  | setInput (v : String)
  /-- Enter in the input field or the send button: `handleSend()`. -/
  | typed
  /-- The handler `recognition.onresult` with transcript `tr`. -/
  | voice (tr : String)
  /-- A click on a slot button; `time` is the `toLocaleTimeString` of the slot. -/
  | slotClick (time : String)
  /-- The mic button, with speech recognition present. -/
  | toggleMic
  /-- The `i`-th outstanding post resolves with `res.data = body`. -/
  | resolve (i : Nat) (body : JsVal)
  /-- The `i`-th outstanding post rejects. -/
  | reject (i : Nat)
  /-- The `i`-th pending timer fires. -/
  | fire (i : Nat)

/-- Lines 194-199. -/
def onresult (tr : String) (s : Session) : Session :=
  let s1 := { s with inputValue := tr }
  let s2 := handleSend initMessages "" (some tr) s1
  { s2 with isListening := false }

/-- Line 245. -/
def handleSlotClick (time : String) (s : Session) : Session :=
  handleSend s.messages s.inputValue (some ("Book " ++ time)) s

/-- One event. An index that names no outstanding request or timer is no event. -/
def step (s : Session) : Event → Session
  | .setInput v => { s with inputValue := v }
  | .typed => handleSend s.messages s.inputValue none s
  | .voice tr => onresult tr s
  | .slotClick time => handleSlotClick time s
  | .toggleMic => { s with isListening := !s.isListening }
  | .resolve i body =>
    match s.inflight[i]? with
    | some _ => onResolve body { s with inflight := s.inflight.eraseIdx i }
    | none => s
  | .reject i =>
    match s.inflight[i]? with
    | some _ => onReject { s with inflight := s.inflight.eraseIdx i }
    | none => s
  | .fire i =>
    match s.timers[i]? with
    | some (_, t) => runTimer t { s with timers := s.timers.eraseIdx i }
    | none => s

/-- A sequence of events, in order. -/
def run (s : Session) (evs : List Event) : Session :=
  evs.foldl step s

/-- The states the component can be in. -/
def Reachable (s : Session) : Prop :=
  ∃ evs, run init evs = s

/-! ## Round trips -/

/-- The `msgType` and `msgData` the deferred callback ends with for a given `data`;
`none` when it throws. -/
def decode (data : JsVal) : Option (String × JsVal) :=
  if (data.getPropOpt "type").eqStr "slots" then
    (slotsData data).map fun msgData => ("slots", msgData)
  else if (data.getPropOpt "type").eqStr "confirmation" then some ("confirmation_card", .null)
  else some ("text", .null)

/-- One submission together with the body its post resolves with: the closure values
of the `handleSend` that runs, its argument, and `res.data`. -/
structure Turn where
  messages : List Msg
  inputValue : String
  text : Option String
  body : JsVal

/-- The submitted text of a turn. -/
def Turn.userMsg (t : Turn) : String :=
  userMsgOf t.inputValue t.text

/-- The agent message a turn's body is decoded to, if the decoding completes. -/
def Turn.reply (t : Turn) : Option Msg :=
  match destructure t.body with
  | some (responseText, data) =>
    (decode data).map fun p => { role := "agent", text := responseText, type := p.1, data := p.2 }
  | none => none

/-- A turn is successful when its text is accepted and its body is decoded. -/
def Turn.Successful (t : Turn) : Prop :=
  t.userMsg ≠ "" ∧ t.reply.isSome = true

/-- A whole round trip with nothing in between: the submission, then its post
resolves, then its deferred callback fires. The request and the timer are the last
ones added. -/
def roundTrip (s : Session) (t : Turn) : Session :=
  step (step (handleSend t.messages t.inputValue t.text s) (.resolve s.inflight.length t.body))
    (.fire s.timers.length)

/-! ## Slot entries -/

/-- A raw timestamp: a string or a number. -/
def isTimestamp : JsVal → Bool
  | .str _ => true
  | .num _ => true
  | _ => false

/-- An object with a `start` field holding a timestamp. -/
def isStartObject : JsVal → Bool
  | .obj fields =>
    match fields.lookup "start" with
    | some v => isTimestamp v
    | none => false
  | _ => false

/-- The timestamp an entry stands for: the `start` field of an object, the entry
itself otherwise. -/
def timestampOf : JsVal → JsVal
  | .obj fields => (fields.lookup "start").getD .undefined
  | v => v

/-! ## The admin dashboard -/

/-- The state of `AdminDashboard`, with the number of `console.error` calls. -/
structure Admin where
  appointments : JsVal
  loading : Bool
  logged : Nat

/-- The component after its first render (lines 9-10). -/
def Admin.init : Admin :=
  { appointments := .arr [], loading := true, logged := 0 }

/-- Line 13, `fetchAppointments` up to its `await`. -/
def fetchStart (a : Admin) : Admin :=
  { a with loading := true }

/-- Lines 19-24, `fetchAppointments` after its `await`: `res` is `some res.data` when
the get resolves and `none` when it rejects. -/
def fetchSettle (res : Option JsVal) (a : Admin) : Admin :=
  match res with
  | some data => { a with appointments := data, loading := false }
  | none => { a with logged := a.logged + 1, loading := false }

/-- A whole `fetchAppointments` with nothing in between. -/
def fetchAppointments (res : Option JsVal) (a : Admin) : Admin :=
  fetchSettle res (fetchStart a)

/-- The dashboard together with what the event loop holds for it: the ids of the
cancel posts awaiting an answer, the number of gets of the appointment list awaiting
an answer, and the number of alerts shown. -/
structure Dashboard where
  admin : Admin
  cancels : List JsVal
  gets : Nat
  alerts : Nat

/-- Lines 12-18, a call of `fetchAppointments` up to its `await`: the loading flag is
set and the get is issued. -/
def startFetch (d : Dashboard) : Dashboard :=
  { d with admin := fetchStart d.admin, gets := d.gets + 1 }

/-- The dashboard once the effect of lines 27-31 has run: the first fetch is under
way. -/
def Dashboard.init : Dashboard :=
  startFetch { admin := Admin.init, cancels := [], gets := 0, alerts := 0 }

/-- Lines 33-36, `handleCancel` up to its `await`; `accepted` is what `confirm`
returns. -/
def handleCancel (accepted : Bool) (id : JsVal) (d : Dashboard) : Dashboard :=
  if !accepted then d
  else { d with cancels := d.cancels ++ [id] }

/-- Lines 37-40, `handleCancel` after its `await`: `ok` tells whether the post
resolved; then `fetchAppointments()` is called, else the `catch` shows the alert. -/
def cancelSettle (ok : Bool) (d : Dashboard) : Dashboard :=
  if ok then startFetch d
  else { d with alerts := d.alerts + 1 }

/-- What can happen to the dashboard. -/
inductive DashEvent where
  /-- The interval of line 29 calls `fetchAppointments`. -/
  | interval
  /-- A click on the cancel button of the appointment `id`, and the answer given to
  `confirm`. -/
  | cancelClick (id : JsVal) (accepted : Bool)
  /-- The `i`-th outstanding cancel post resolves. -/
  | cancelResolve (i : Nat)
  /-- The `i`-th outstanding cancel post rejects. -/
  | cancelReject (i : Nat)
  /-- An outstanding get resolves with `res.data = data`. -/
  | getResolve (data : JsVal)
  /-- An outstanding get rejects. -/
  | getReject

/-- One event of the dashboard. An event naming no outstanding request is no event. -/
def dashStep (d : Dashboard) : DashEvent → Dashboard
  | .interval => startFetch d
  | .cancelClick id accepted => handleCancel accepted id d
  | .cancelResolve i =>
    match d.cancels[i]? with
    | some _ => cancelSettle true { d with cancels := d.cancels.eraseIdx i }
    | none => d
  | .cancelReject i =>
    match d.cancels[i]? with
    | some _ => cancelSettle false { d with cancels := d.cancels.eraseIdx i }
    | none => d
  | .getResolve data =>
    if d.gets = 0 then d
    else { d with admin := fetchSettle (some data) d.admin, gets := d.gets - 1 }
  | .getReject =>
    if d.gets = 0 then d
    else { d with admin := fetchSettle none d.admin, gets := d.gets - 1 }

/-! ## Concrete replies used in the examples -/

/-- A reply `{ text: "Pick a time", data: { type: "slots", slots: ["10:00", "11:00"] } }`. -/
def slotsReply : JsVal :=
  .obj [("text", .str "Pick a time"),
        ("data", .obj [("type", .str "slots"), ("slots", .arr [.str "10:00", .str "11:00"])])]

/-- A reply `{ text: "Booked", data: { type: "confirmation" } }`. -/
def confirmationReply : JsVal :=
  .obj [("text", .str "Booked"), ("data", .obj [("type", .str "confirmation")])]

/-- A reply `{ text: "Hello" }`, without `data`. -/
def plainReply : JsVal :=
  .obj [("text", .str "Hello")]

/-- A reply `{ text: "Pick", data: { type: "slots", slots: [{ start: "10:00" }, null] } }`. -/
def nullEntryReply : JsVal :=
  .obj [("text", .str "Pick"),
        ("data", .obj [("type", .str "slots"),
                       ("slots", .arr [.obj [("start", .str "10:00")], .null])])]

/-- A reply `{ text: "Pick", data: { type: "slots", slots: "soon" } }`. -/
def stringSlotsReply : JsVal :=
  .obj [("text", .str "Pick"), ("data", .obj [("type", .str "slots"), ("slots", .str "soon")])]

/-! ## List facts used below -/

/-- Erasing the position just after `l` in `l ++ [a]` gives `l` back. -/
theorem eraseIdx_append_singleton {α : Type} (l : List α) (a : α) :
    (l ++ [a]).eraseIdx l.length = l := by
  induction l with
  | nil => rfl
  | cons x xs ih => simp [List.eraseIdx, ih]

/-! ## The submission guard (C1) -/

/-- C1, as stated, fails: after one typed submission `"a"` from the initial state the
status is `thinking` with one request outstanding, and a second typed submission `"b"`
in that state is not rejected; it appends a second user message and a second request
is outstanding. -/
theorem C1_counterexample :
    Reachable (run init [.setInput "a", .typed, .setInput "b"]) ∧
      (run init [.setInput "a", .typed, .setInput "b"]).systemState = "thinking" ∧
      (run init [.setInput "a", .typed, .setInput "b"]).inflight.map (·.message) = ["a"] ∧
      (step (run init [.setInput "a", .typed, .setInput "b"]) .typed).messages.length =
        (run init [.setInput "a", .typed, .setInput "b"]).messages.length + 1 ∧
      (step (run init [.setInput "a", .typed, .setInput "b"]) .typed).messages.map
        (fun m => (m.role, m.type)) = [("agent", "text"), ("user", "text"), ("user", "text")] ∧
      (step (run init [.setInput "a", .typed, .setInput "b"]) .typed).inflight.map (·.message) =
        ["a", "b"] :=
  ⟨⟨_, rfl⟩, by decide, by decide, by decide, by decide, by decide⟩

/-- C1, amended: in every state whose status is `thinking`, a submission through
`handleSend` whose text `text || inputValue.trim()` is non-empty is accepted: the user
message is appended to the store, one more request is dispatched after those already
outstanding, and the status stays `thinking`. -/
theorem C1_submission_while_thinking_is_accepted (s : Session) (messages : List Msg)
    (inputValue : String) (text : Option String) (hs : s.systemState = "thinking")
    (ht : userMsgOf inputValue text ≠ "") :
    (handleSend messages inputValue text s).messages =
        s.messages ++ [userMessage (userMsgOf inputValue text)] ∧
      (handleSend messages inputValue text s).inflight =
        s.inflight ++ [{ session_id := "space-user", message := userMsgOf inputValue text,
                         history := messages.map toHistory }] ∧
      (handleSend messages inputValue text s).inflight.length = s.inflight.length + 1 ∧
      (handleSend messages inputValue text s).systemState = s.systemState := by
  simp [handleSend, ht, hs]

/-- C1, amended, at the state reached by one typed submission `"a"` and the explicit
text `"b"`. -/
theorem C1_submission_while_thinking_is_accepted_witness :
    (run init [.setInput "a", .typed]).systemState = "thinking" ∧
      userMsgOf "" (some "b") ≠ "" ∧
      (handleSend (run init [.setInput "a", .typed]).messages "" (some "b")
          (run init [.setInput "a", .typed])).inflight.length =
        (run init [.setInput "a", .typed]).inflight.length + 1 :=
  ⟨by decide, by decide,
    (C1_submission_while_thinking_is_accepted (run init [.setInput "a", .typed])
      (run init [.setInput "a", .typed]).messages "" (some "b") (by decide) (by decide)).2.2.1⟩

/-! ## Status after a reply (C2, C3) -/

/-- C2 fails on the code for a slot-options reply: after the typed submission
`"haircut"` from the initial state, the reply `slotsReply` and the deferred callback,
the agent message of type `slots` is in the store, nothing is outstanding, and the
status is still `thinking`. -/
theorem C2_slots_reply_leaves_thinking :
    (run init [.setInput "haircut", .typed, .resolve 0 slotsReply, .fire 0]).systemState =
        "thinking" ∧
      (run init [.setInput "haircut", .typed, .resolve 0 slotsReply, .fire 0]).messages.map
        (fun m => (m.role, m.type)) = [("agent", "text"), ("user", "text"), ("agent", "slots")] ∧
      (run init [.setInput "haircut", .typed, .resolve 0 slotsReply, .fire 0]).inflight.length = 0 ∧
      (run init [.setInput "haircut", .typed, .resolve 0 slotsReply, .fire 0]).timers.length = 0 :=
  ⟨by decide, by decide, by decide, by decide⟩

/-- A reply whose `data?.type` is neither `slots` nor `confirmation` sets the status to
`idle` and appends the agent message of type `text`. -/
theorem plain_reply_sets_idle (s : Session) (responseText data : JsVal)
    (h1 : (data.getPropOpt "type").eqStr "slots" = false)
    (h2 : (data.getPropOpt "type").eqStr "confirmation" = false) :
    replyCallback responseText data s =
      some { s with
        systemState := "idle"
        messages := s.messages ++
          [{ role := "agent", text := responseText, type := "text", data := .null }]
        spoken := s.spoken ++ [responseText] } := by
  simp [replyCallback, h1, h2]

/-- C3, as stated, fails: a confirmation is processed (status `success`, revert timer
pending), a new typed submission enters `thinking`, and the revert timer then fires
while that request is still outstanding: the status becomes `idle`. -/
theorem C3_counterexample :
    (run init [.setInput "book", .typed, .resolve 0 confirmationReply, .fire 0]).systemState =
        "success" ∧
      (run init [.setInput "book", .typed, .resolve 0 confirmationReply, .fire 0,
        .setInput "again", .typed]).systemState = "thinking" ∧
      (run init [.setInput "book", .typed, .resolve 0 confirmationReply, .fire 0,
        .setInput "again", .typed]).timers.map (·.1) = [3000] ∧
      (run init [.setInput "book", .typed, .resolve 0 confirmationReply, .fire 0,
        .setInput "again", .typed, .fire 0]).systemState = "idle" ∧
      (run init [.setInput "book", .typed, .resolve 0 confirmationReply, .fire 0,
        .setInput "again", .typed, .fire 0]).inflight.map (·.message) = ["again"] :=
  ⟨by decide, by decide, by decide, by decide, by decide⟩

/-- C3, amended: for every reply with `data.type = 'confirmation'`, the deferred
callback sets the status to `success`, appends the agent message of type
`confirmation_card` and schedules the revert with a delay of 3000 ms; the revert, when
it fires, sets the status to `idle` in every state, whatever the status then is, and
changes nothing else. -/
theorem C3_confirmation_then_unconditional_revert (s : Session) (responseText data : JsVal)
    (h : data.getPropOpt "type" = .str "confirmation") :
    replyCallback responseText data s =
        some { s with
          systemState := "success"
          timers := s.timers ++ [(3000, Timer.revert)]
          messages := s.messages ++
            [{ role := "agent", text := responseText, type := "confirmation_card",
               data := .null }]
          spoken := s.spoken ++ [responseText] } ∧
      ∀ t : Session, runTimer .revert t = { t with systemState := "idle" } := by
  refine ⟨?_, fun t => rfl⟩
  simp [replyCallback, h, JsVal.eqStr]

/-- C3, amended, at the initial state and the data `{ type: "confirmation" }`. -/
theorem C3_confirmation_then_unconditional_revert_witness :
    (JsVal.obj [("type", .str "confirmation")]).getPropOpt "type" = .str "confirmation" ∧
      (replyCallback (.str "Booked") (.obj [("type", .str "confirmation")]) init).map
        (·.systemState) = some "success" :=
  ⟨rfl, by
    rw [(C3_confirmation_then_unconditional_revert init (.str "Booked")
      (.obj [("type", .str "confirmation")]) rfl).1]
    rfl⟩

/-! ## Failed and empty submissions (C4, C5) -/

/-- C4, as stated, fails: the typed submission `"a"` is made from the initial state, a
second typed submission `"b"` is accepted while it is outstanding, and the post of
`"a"` then rejects: the store is 3 longer than before the submission `"a"`, with a
second user message between the user message `"a"` and the fallback. -/
theorem C4_counterexample :
    (run init [.setInput "a", .typed, .setInput "b", .typed]).inflight.map (·.message) =
        ["a", "b"] ∧
      (run init [.setInput "a", .typed, .setInput "b", .typed, .reject 0]).inflight.map
        (·.message) = ["b"] ∧
      (run init [.setInput "a", .typed, .setInput "b", .typed, .reject 0]).messages =
        init.messages ++ [userMessage "a", userMessage "b", fallbackMessage] ∧
      (run init [.setInput "a", .typed, .setInput "b", .typed, .reject 0]).messages.length =
        init.messages.length + 3 :=
  ⟨by decide, by decide, rfl, by decide⟩

/-- C4, amended: for every state and every accepted submission, with text
`T = text || inputValue.trim()` non-empty, whose post rejects after any events `evs`
that append no message to the store, the store ends as the messages before the
submission, then the user message `{ role: 'user', text: T, type: 'text' }`, then the
fallback message of type `text` with text "Signal Lost. Please retry.", so exactly 2
longer, and the status ends at `idle`. -/
theorem C4_failed_submission_adds_two (s : Session) (messages : List Msg)
    (inputValue : String) (text : Option String) (evs : List Event) (i : Nat)
    (ht : userMsgOf inputValue text ≠ "")
    (hquiet : (run (handleSend messages inputValue text s) evs).messages =
      (handleSend messages inputValue text s).messages)
    (hi : (run (handleSend messages inputValue text s) evs).inflight[i]? =
      some { session_id := "space-user", message := userMsgOf inputValue text,
             history := messages.map toHistory }) :
    (step (run (handleSend messages inputValue text s) evs) (.reject i)).messages =
        s.messages ++
          [{ role := "user", text := .str (userMsgOf inputValue text), type := "text",
             data := .undefined },
           { role := "agent", text := .str "Signal Lost. Please retry.", type := "text",
             data := .undefined }] ∧
      (step (run (handleSend messages inputValue text s) evs) (.reject i)).messages.length =
        s.messages.length + 2 ∧
      (step (run (handleSend messages inputValue text s) evs) (.reject i)).systemState =
        "idle" := by
  have hs : (handleSend messages inputValue text s).messages =
      s.messages ++ [userMessage (userMsgOf inputValue text)] := by
    simp [handleSend, ht]
  rw [hs] at hquiet
  generalize run (handleSend messages inputValue text s) evs = s2 at hquiet hi
  simp [step, hi, onReject, hquiet, userMessage, fallbackMessage]

/-- C4, amended, at the initial state with the input field holding `" hi "`, the input
field edited and the mic toggled before the post rejects. -/
theorem C4_failed_submission_adds_two_witness :
    userMsgOf " hi " none ≠ "" ∧
      (run (handleSend init.messages " hi " none init) [.setInput "x", .toggleMic]).messages =
        (handleSend init.messages " hi " none init).messages ∧
      (step (run (handleSend init.messages " hi " none init) [.setInput "x", .toggleMic])
        (.reject 0)).messages.length = init.messages.length + 2 ∧
      (step (run (handleSend init.messages " hi " none init) [.setInput "x", .toggleMic])
        (.reject 0)).systemState = "idle" :=
  ⟨by decide, rfl,
    (C4_failed_submission_adds_two init init.messages " hi " none [.setInput "x", .toggleMic] 0
      (by decide) rfl rfl).2⟩

/-- C5 fails on the code for an explicit text: the transcript `" "` is empty after
trimming, yet `recognition.onresult` with it, in the initial state, appends the user
message `" "`, sets the status to `thinking` and dispatches a request. -/
theorem C5_blank_transcript_is_sent :
    jsTrim " " = "" ∧
      (step init (.voice " ")).messages = init.messages ++ [userMessage " "] ∧
      (step init (.voice " ")).systemState = "thinking" ∧
      (step init (.voice " ")).inflight.map (·.message) = [" "] :=
  ⟨by decide, rfl, by decide, by decide⟩

/-- A submission from the input field is ignored when the field is empty after
trimming. -/
theorem typed_blank_is_ignored (s : Session) (h : jsTrim s.inputValue = "") :
    step s .typed = s := by
  simp [step, handleSend, userMsgOf, h]

/-! ## Sequences of round trips (C6) -/

/-- The store after the deferred callback, in terms of `decode`. -/
theorem replyCallback_messages (responseText data : JsVal) (s : Session) :
    (replyCallback responseText data s).map (·.messages) =
      (decode data).map fun p =>
        s.messages ++ [{ role := "agent", text := responseText, type := p.1, data := p.2 }] := by
  unfold replyCallback decode
  split
  · cases slotsData data <;> rfl
  · split <;> rfl

/-- The store after one successful round trip. -/
theorem roundTrip_messages (s : Session) (t : Turn) (h : t.Successful) :
    ∃ m, t.reply = some m ∧ m.role = "agent" ∧
      (roundTrip s t).messages = s.messages ++ [userMessage t.userMsg, m] := by
  obtain ⟨ht, hr⟩ := h
  have ht' : userMsgOf t.inputValue t.text ≠ "" := ht
  unfold Turn.reply at hr ⊢
  cases hd : destructure t.body with
  | none => simp [hd] at hr
  | some rd =>
    obtain ⟨responseText, data⟩ := rd
    simp only [hd] at hr ⊢
    cases hp : decode data with
    | none => simp [hp] at hr
    | some p =>
      refine ⟨_, rfl, rfl, ?_⟩
      have hm := replyCallback_messages responseText data
        { messages := s.messages ++ [userMessage (userMsgOf t.inputValue t.text)]
          inputValue := ""
          systemState := "thinking"
          isListening := s.isListening
          inflight := s.inflight
          timers := s.timers
          spoken := s.spoken
          uncaught := s.uncaught }
      rw [hp] at hm
      cases hc : replyCallback responseText data
        { messages := s.messages ++ [userMessage (userMsgOf t.inputValue t.text)]
          inputValue := ""
          systemState := "thinking"
          isListening := s.isListening
          inflight := s.inflight
          timers := s.timers
          spoken := s.spoken
          uncaught := s.uncaught } with
      | none => simp [hc] at hm
      | some s' =>
        simp [hc] at hm
        simp [roundTrip, handleSend, ht', step, onResolve, hd, runTimer,
          eraseIdx_append_singleton, hc, hm, Turn.userMsg]

/-- C6, as stated, fails: two successful submissions, the second made while the first
is outstanding, leave the store 4 longer but with both user messages before both
replies. -/
theorem C6_counterexample :
    (run init [.setInput "a", .typed, .setInput "b", .typed, .resolve 0 plainReply,
        .resolve 0 confirmationReply, .fire 0, .fire 0]).messages.map
        (fun m => (m.role, m.type)) =
      [("agent", "text"), ("user", "text"), ("user", "text"), ("agent", "text"),
        ("agent", "confirmation_card")] ∧
      (run init [.setInput "a", .typed, .setInput "b", .typed, .resolve 0 plainReply,
        .resolve 0 confirmationReply, .fire 0, .fire 0]).inflight.length = 0 :=
  ⟨by decide, by decide⟩

/-- C6, amended: for every state and every sequence of N successful round trips, each
completed (its reply processed) before the next submission is made, the store ends as
the previous messages followed, for each turn in order, by the user message with that
turn's text and then the reply to it; so it is exactly 2N longer and the roles of the
added messages are user, agent, user, agent, and so on. -/
theorem C6_sequential_round_trips (ts : List Turn) (s : Session)
    (h : ∀ t ∈ ts, t.Successful) :
    (ts.foldl roundTrip s).messages =
        s.messages ++ ts.flatMap (fun t => userMessage t.userMsg :: t.reply.toList) ∧
      (ts.foldl roundTrip s).messages.length = s.messages.length + 2 * ts.length ∧
      ((ts.foldl roundTrip s).messages.drop s.messages.length).map (·.role) =
        ts.flatMap (fun _ => ["user", "agent"]) := by
  induction ts generalizing s with
  | nil => simp
  | cons t ts ih =>
    obtain ⟨m, hm, hrole, hmsg⟩ := roundTrip_messages s t (h t (List.mem_cons_self t ts))
    obtain ⟨h1, h2, h3⟩ := ih (roundTrip s t) (fun u hu => h u (List.mem_cons_of_mem t hu))
    have hlen : (roundTrip s t).messages.length = s.messages.length + 2 := by
      rw [hmsg]; simp
    refine ⟨?_, ?_, ?_⟩
    · rw [List.foldl_cons, h1, hmsg, List.flatMap_cons, hm]
      simp
    · rw [List.foldl_cons, h2, hlen, List.length_cons]
      omega
    · rw [List.foldl_cons, h1, hmsg, List.flatMap_cons]
      rw [h1, hlen] at h3
      have hdrop : ∀ (l r : List Msg) (n : Nat), l.length = n → (l ++ r).drop n = r := by
        intro l r n hn
        subst hn
        simp
      rw [hdrop _ _ _ hlen] at h3
      rw [List.append_assoc, hdrop _ _ _ rfl, List.map_append, h3]
      simp [userMessage, hrole]

/-- C6, amended, on two turns from the initial state: a typed `"a"` answered by
`plainReply`, then a slot click answered by `confirmationReply`. -/
theorem C6_sequential_round_trips_witness :
    (∀ t ∈ [({ messages := [], inputValue := "a", text := none, body := plainReply } : Turn),
        { messages := [], inputValue := "", text := some "Book 10:00",
          body := confirmationReply }], t.Successful) ∧
      (List.foldl roundTrip init
        [({ messages := [], inputValue := "a", text := none, body := plainReply } : Turn),
          { messages := [], inputValue := "", text := some "Book 10:00",
            body := confirmationReply }]).messages.length = init.messages.length + 2 * 2 :=
  ⟨by
    intro t ht
    simp only [List.mem_cons, List.mem_singleton, List.not_mem_nil, or_false] at ht
    rcases ht with rfl | rfl
    · exact ⟨by decide, by decide⟩
    · exact ⟨by decide, by decide⟩,
   (C6_sequential_round_trips _ init (by
    intro t ht
    simp only [List.mem_cons, List.mem_singleton, List.not_mem_nil, or_false] at ht
    rcases ht with rfl | rfl
    · exact ⟨by decide, by decide⟩
    · exact ⟨by decide, by decide⟩)).2.1⟩

/-! ## The history sent with a request (C7) -/

/-- On the typed path and on a slot click the history of the dispatched request is the
store as it was before the user message was appended, mapped by `toHistory`. -/
theorem typed_and_slot_history_is_store (s : Session) (time : String)
    (h : jsTrim s.inputValue ≠ "") :
    (step s .typed).inflight =
        s.inflight ++ [{ session_id := "space-user", message := jsTrim s.inputValue,
                         history := s.messages.map toHistory }] ∧
      (step s (.slotClick time)).inflight =
        s.inflight ++ [{ session_id := "space-user", message := "Book " ++ time,
                         history := s.messages.map toHistory }] := by
  have hb : "Book " ++ time ≠ "" := by
    intro hc
    have := congrArg String.length hc
    simp [String.length_append] at this
    have h5 : "Book ".length = 5 := by decide
    omega
  simp [step, handleSlotClick, handleSend, userMsgOf, h, hb]

/-- C7 fails on the code for the voice path: after one completed round trip the store
holds 3 messages, and `recognition.onresult` with the transcript `"book"` then
dispatches a request whose history has the single entry of the first render's store,
not the 3 entries of the store before the user message was appended. -/
theorem C7_voice_history_is_stale :
    (run init [.setInput "hi", .typed, .resolve 0 plainReply, .fire 0]).messages.map
        (fun m => (m.role, m.type)) = [("agent", "text"), ("user", "text"), ("agent", "text")] ∧
      (run init [.setInput "hi", .typed, .resolve 0 plainReply, .fire 0, .voice "book"]).inflight.map
        (fun r => (r.message, r.history.map (·.role))) = [("book", ["assistant"])] ∧
      (run init [.setInput "hi", .typed, .resolve 0 plainReply, .fire 0,
        .voice "book"]).messages.length = 4 :=
  ⟨by decide, by decide, by decide⟩

/-! ## Normalising the slots list (C8) -/

/-- C8, as stated, fails on a mixed list: for `[{ start: "10:00" }, "11:00"]` every
entry is a raw timestamp or an object with a start field, and the payload is
`["10:00", undefined]`; for `["10:00", { start: "11:00" }]` the payload is the list
unchanged, with the object at position 1. -/
theorem C8_counterexample :
    ([JsVal.obj [("start", .str "10:00")], .str "11:00"].all
        fun x => isTimestamp x || isStartObject x) = true ∧
      slotsData (.obj [("type", .str "slots"),
          ("slots", .arr [.obj [("start", .str "10:00")], .str "11:00"])]) =
        some (.arr [.str "10:00", .undefined]) ∧
      slotsData (.obj [("type", .str "slots"),
          ("slots", .arr [.obj [("start", .str "10:00")], .str "11:00"])]) ≠
        some (.arr ([JsVal.obj [("start", .str "10:00")], .str "11:00"].map timestampOf)) ∧
      slotsData (.obj [("type", .str "slots"),
          ("slots", .arr [.str "10:00", .obj [("start", .str "11:00")]])]) =
        some (.arr [.str "10:00", .obj [("start", .str "11:00")]]) := by
  refine ⟨by decide, rfl, ?_, rfl⟩
  have h : slotsData (.obj [("type", .str "slots"),
      ("slots", .arr [.obj [("start", .str "10:00")], .str "11:00"])]) =
        some (.arr [.str "10:00", .undefined]) := rfl
  rw [h]
  simp [timestampOf]

/-- The call `map(s => s.start)` on a list of objects with a start field. -/
theorem mapM_start_of_objects (xs : List JsVal) (h : ∀ x ∈ xs, isStartObject x = true) :
    xs.mapM (fun s => JsVal.getProp s "start") = some (xs.map timestampOf) := by
  induction xs with
  | nil => rfl
  | cons x xs ih =>
    rw [List.mapM_cons, ih (fun y hy => h y (List.mem_cons_of_mem x hy))]
    have hx := h x (List.mem_cons_self x xs)
    cases x <;> simp [isStartObject] at hx
    simp [JsVal.getProp, timestampOf]

/-- The call `slots.map(s => s.start)` on an array of objects with a start field. -/
theorem mapStart_of_objects (xs : List JsVal) (h : ∀ x ∈ xs, isStartObject x = true) :
    JsVal.mapStart (.arr xs) = some (.arr (xs.map timestampOf)) := by
  show Option.map JsVal.arr (xs.mapM fun s => JsVal.getProp s "start") = _
  rw [mapM_start_of_objects xs h]
  rfl

/-- A raw timestamp stands for itself. -/
theorem map_timestampOf_raw (xs : List JsVal) (h : ∀ x ∈ xs, isTimestamp x = true) :
    xs.map timestampOf = xs := by
  induction xs with
  | nil => rfl
  | cons x xs ih =>
    have hx := h x (List.mem_cons_self x xs)
    rw [List.map_cons, ih (fun y hy => h y (List.mem_cons_of_mem x hy))]
    cases x <;> simp [isTimestamp] at hx <;> rfl

/-- C8, amended: for every slots reply whose slots list is uniform, every entry a raw
timestamp or every entry an object with a start field, the deferred callback appends
the agent message of type `slots` whose payload is the flat sequence of timestamps of
the same length and order: entry i is the raw timestamp itself, or the start field of
the object at position i. -/
theorem C8_uniform_slots_are_normalised (s : Session) (responseText data : JsVal)
    (xs : List JsVal) (ht : data.getPropOpt "type" = .str "slots")
    (hs : data.getPropOpt "slots" = .arr xs)
    (h : (∀ x ∈ xs, isTimestamp x = true) ∨ (∀ x ∈ xs, isStartObject x = true)) :
    replyCallback responseText data s =
        some { s with
          messages := s.messages ++
            [{ role := "agent", text := responseText, type := "slots",
               data := .arr (xs.map timestampOf) }]
          spoken := s.spoken ++ [responseText] } ∧
      (xs.map timestampOf).length = xs.length := by
  refine ⟨?_, List.length_map _ _⟩
  have hd : slotsData data = some (.arr (xs.map timestampOf)) := by
    unfold slotsData
    rw [hs]
    cases xs with
    | nil => rfl
    | cons x rest =>
      rcases h with h | h
      · have hx := h x (List.mem_cons_self x rest)
        rw [map_timestampOf_raw _ h]
        cases x <;> simp [isTimestamp] at hx <;>
          simp [JsVal.truthy, JsVal.index0, JsVal.typeof]
      · have hx := h x (List.mem_cons_self x rest)
        cases x <;> simp [isStartObject] at hx
        simp [JsVal.truthy, JsVal.index0, JsVal.typeof, mapStart_of_objects _ h]
  simp [replyCallback, ht, JsVal.eqStr, hd]

/-- C8, amended, at the initial state and the list
`[{ start: "10:00" }, { start: "11:00" }]`. -/
theorem C8_uniform_slots_are_normalised_witness :
    (∀ x ∈ [JsVal.obj [("start", .str "10:00")], .obj [("start", .str "11:00")]],
        isStartObject x = true) ∧
      (replyCallback (.str "Pick")
          (.obj [("type", .str "slots"),
            ("slots", .arr [.obj [("start", .str "10:00")], .obj [("start", .str "11:00")]])])
          init).map (·.messages) =
        some (init.messages ++
          [{ role := "agent", text := .str "Pick", type := "slots",
             data := .arr [.str "10:00", .str "11:00"] }]) :=
  ⟨by decide, by
    rw [(C8_uniform_slots_are_normalised init (.str "Pick")
      (.obj [("type", .str "slots"),
        ("slots", .arr [.obj [("start", .str "10:00")], .obj [("start", .str "11:00")]])])
      [.obj [("start", .str "10:00")], .obj [("start", .str "11:00")]] rfl rfl
      (Or.inr (by decide))).1]
    rfl⟩

/-! ## Malformed replies (C9) -/

/-- C9 fails on the code. For the body `nullEntryReply`, whose slots list holds `null`
after an object, the deferred callback throws outside the `try`: no agent message is
appended, the exception escapes, and the status stays `thinking` with nothing
outstanding. For the body `stringSlotsReply`, whose slots is a string, the callback
appends an agent message of type `slots` carrying the string and the status stays
`thinking`. A rejected post, in contrast, appends the fallback and ends at `idle`. -/
theorem C9_malformed_slots_reply_gets_no_fallback :
    ((run init [.setInput "a", .typed, .resolve 0 nullEntryReply, .fire 0]).messages =
        init.messages ++ [userMessage "a"] ∧
      (run init [.setInput "a", .typed, .resolve 0 nullEntryReply, .fire 0]).systemState =
        "thinking" ∧
      (run init [.setInput "a", .typed, .resolve 0 nullEntryReply, .fire 0]).uncaught = 1 ∧
      (run init [.setInput "a", .typed, .resolve 0 nullEntryReply, .fire 0]).inflight.length = 0 ∧
      (run init [.setInput "a", .typed, .resolve 0 nullEntryReply, .fire 0]).timers.length = 0) ∧
    ((run init [.setInput "a", .typed, .resolve 0 stringSlotsReply, .fire 0]).messages =
        init.messages ++ [userMessage "a",
          { role := "agent", text := .str "Pick", type := "slots", data := .str "soon" }] ∧
      (run init [.setInput "a", .typed, .resolve 0 stringSlotsReply, .fire 0]).systemState =
        "thinking") ∧
    ((run init [.setInput "a", .typed, .reject 0]).messages =
        init.messages ++ [userMessage "a", fallbackMessage] ∧
      (run init [.setInput "a", .typed, .reject 0]).systemState = "idle") :=
  ⟨⟨rfl, by decide, by decide, by decide, by decide⟩, ⟨rfl, by decide⟩, ⟨rfl, by decide⟩⟩

/-- A body that is `null` or `undefined` makes the destructuring throw inside the
`try`: the fallback is appended and the status is `idle`. -/
theorem null_body_gets_fallback (s : Session) :
    onResolve .null s = { s with systemState := "idle", messages := s.messages ++ [fallbackMessage] } ∧
      onResolve .undefined s =
        { s with systemState := "idle", messages := s.messages ++ [fallbackMessage] } :=
  ⟨rfl, rfl⟩

/-! ## Fetching the appointments (C10) -/

/-- C10: for every mirrored list and every fetch, a get resolving with `R` makes the
mirrored list exactly `R`, whatever it was, also when the state changed between the
start of the fetch and its answer; so a second fetch against the same `R` leaves an
equal list; a rejected get leaves the list as it was; and the loading flag ends false
in both cases. -/
theorem C10_fetch_replaces_or_keeps (a : Admin) (R : JsVal) :
    (fetchAppointments (some R) a).appointments = R ∧
      (fetchAppointments (some R) (fetchAppointments (some R) a)).appointments =
        (fetchAppointments (some R) a).appointments ∧
      (fetchAppointments none a).appointments = a.appointments ∧
      (fetchAppointments (some R) a).loading = false ∧
      (fetchAppointments none a).loading = false ∧
      (fetchSettle (some R) a).appointments = R ∧
      (fetchSettle none a).appointments = a.appointments ∧
      (fetchSettle (some R) a).loading = false ∧
      (fetchSettle none a).loading = false :=
  ⟨rfl, rfl, rfl, rfl, rfl, rfl, rfl, rfl, rfl⟩

/-! ## Cancelling an appointment (C11) -/

/-- C11: for every dashboard state and appointment id. Declined: `handleCancel`
changes nothing, so no post is issued, no fetch is started and the mirrored list is
as before. Accepted: the cancel post for that id is issued and, until it is answered,
nothing else changes, so no fetch is started before the response. The post rejects:
one alert is shown, the mirrored list is unchanged and no fetch is started. The post
resolves: exactly one fetch is started, the mirrored list being unchanged until that
fetch is answered. -/
theorem C11_cancel_confirms_then_resyncs (d : Dashboard) (id : JsVal) :
    handleCancel false id d = d ∧
      handleCancel true id d = { d with cancels := d.cancels ++ [id] } ∧
      (handleCancel true id d).gets = d.gets ∧
      (handleCancel true id d).admin = d.admin ∧
      dashStep (handleCancel true id d) (.cancelReject d.cancels.length) =
        { d with alerts := d.alerts + 1 } ∧
      (dashStep (handleCancel true id d) (.cancelReject d.cancels.length)).admin.appointments =
        d.admin.appointments ∧
      (dashStep (handleCancel true id d) (.cancelReject d.cancels.length)).gets = d.gets ∧
      dashStep (handleCancel true id d) (.cancelResolve d.cancels.length) =
        { d with admin := fetchStart d.admin, gets := d.gets + 1 } ∧
      (dashStep (handleCancel true id d) (.cancelResolve d.cancels.length)).admin.appointments =
        d.admin.appointments ∧
      (dashStep (handleCancel true id d) (.cancelResolve d.cancels.length)).alerts = d.alerts := by
  simp [handleCancel, dashStep, cancelSettle, startFetch, fetchStart, eraseIdx_append_singleton]

/-! ## The store only grows (C12) -/

/-- The store after `handleSend`: unchanged when the text is empty, else one user
message longer. -/
theorem handleSend_messages (messages : List Msg) (inputValue : String)
    (text : Option String) (s : Session) :
    (handleSend messages inputValue text s).messages =
      if userMsgOf inputValue text = "" then s.messages
      else s.messages ++ [userMessage (userMsgOf inputValue text)] := by
  unfold handleSend
  by_cases h : userMsgOf inputValue text = "" <;> simp [h]

/-- The store after a timer callback: one agent message longer when a reply callback
completes, unchanged when it throws and for the revert. -/
theorem runTimer_messages (t : Timer) (s : Session) :
    (runTimer t s).messages = s.messages ∨ ∃ m, (runTimer t s).messages = s.messages ++ [m] := by
  cases t with
  | revert => exact Or.inl rfl
  | reply responseText data =>
    have hm := replyCallback_messages responseText data s
    cases hc : replyCallback responseText data s with
    | none => exact Or.inl (by simp [runTimer, hc])
    | some s' =>
      rw [hc] at hm
      cases hp : decode data with
      | none => simp [hp] at hm
      | some p =>
        rw [hp] at hm
        have hs : s'.messages =
            s.messages ++ [{ role := "agent", text := responseText, type := p.1, data := p.2 }] := by
          simpa using hm
        exact Or.inr ⟨{ role := "agent", text := responseText, type := p.1, data := p.2 },
          by simp [runTimer, hc, hs]⟩

/-- Every event leaves the store as it was or adds one message at its end. -/
theorem step_messages (s : Session) (ev : Event) :
    (step s ev).messages = s.messages ∨ ∃ m, (step s ev).messages = s.messages ++ [m] := by
  have hsend : ∀ (ms : List Msg) (iv : String) (t : Option String) (u : Session),
      (handleSend ms iv t u).messages = u.messages ∨
        ∃ m, (handleSend ms iv t u).messages = u.messages ++ [m] := by
    intro ms iv t u
    rw [handleSend_messages]
    by_cases h : userMsgOf iv t = ""
    · exact Or.inl (by simp [h])
    · exact Or.inr ⟨userMessage (userMsgOf iv t), by simp [h]⟩
  cases ev with
  | setInput v => exact Or.inl rfl
  | typed => exact hsend _ _ _ _
  | voice tr => exact hsend initMessages "" (some tr) { s with inputValue := tr }
  | slotClick time => exact hsend _ _ _ _
  | toggleMic => exact Or.inl rfl
  | resolve i body =>
    cases h : s.inflight[i]? with
    | none => exact Or.inl (by simp [step, h])
    | some r =>
      cases hd : destructure body with
      | none => exact Or.inr ⟨fallbackMessage, by simp [step, h, onResolve, hd]⟩
      | some p => exact Or.inl (by simp [step, h, onResolve, hd])
  | reject i =>
    cases h : s.inflight[i]? with
    | none => exact Or.inl (by simp [step, h])
    | some r => exact Or.inr ⟨fallbackMessage, by simp [step, h, onReject]⟩
  | fire i =>
    cases h : s.timers[i]? with
    | none => exact Or.inl (by simp [step, h])
    | some p =>
      obtain ⟨n, t⟩ := p
      have ht := runTimer_messages t { s with timers := s.timers.eraseIdx i }
      simpa [step, h] using ht

/-- C12: the store is append-only. Every event leaves the store as it was or adds
exactly one message at its end, so the store before an event, and before any sequence
of events, is an initial segment of the store after it. Of the events that touch the
store: an accepted submission adds the user message, a failure adds the fallback
message, and a reply callback that completes adds the agent message. -/
theorem C12_store_is_append_only (s : Session) (ev : Event) (evs : List Event)
    (messages : List Msg) (inputValue : String) (text : Option String)
    (responseText data : JsVal) :
    ((step s ev).messages = s.messages ∨ ∃ m, (step s ev).messages = s.messages ++ [m]) ∧
      s.messages <+: (step s ev).messages ∧
      s.messages <+: (run s evs).messages ∧
      (handleSend messages inputValue text s).messages =
        (if userMsgOf inputValue text = "" then s.messages
         else s.messages ++ [userMessage (userMsgOf inputValue text)]) ∧
      (onReject s).messages = s.messages ++ [fallbackMessage] ∧
      (onResolve .null s).messages = s.messages ++ [fallbackMessage] ∧
      (replyCallback responseText data s).map (·.messages) =
        (decode data).map fun p =>
          s.messages ++ [{ role := "agent", text := responseText, type := p.1, data := p.2 }] := by
  have hstep : ∀ (u : Session) (e : Event), u.messages <+: (step u e).messages := by
    intro u e
    rcases step_messages u e with h | ⟨m, h⟩
    · exact ⟨[], by rw [h, List.append_nil]⟩
    · exact ⟨[m], h.symm⟩
  refine ⟨step_messages s ev, hstep s ev, ?_, handleSend_messages _ _ _ _, rfl, rfl,
    replyCallback_messages _ _ _⟩
  induction evs generalizing s with
  | nil => exact ⟨[], List.append_nil _⟩
  | cons e es ih =>
    obtain ⟨t, ht⟩ := hstep s e
    obtain ⟨u, hu⟩ := ih (step s e)
    exact ⟨t ++ u, by rw [← List.append_assoc, ht]; exact hu⟩

end BookingAgent
